import Mathlib

/-!
Verification of the stake-stats dashboard (a Next.js statistics dashboard with
two source files: `src/components/homepage.tsx` and
`src/app/api/proxy/[...path]/route.ts`) against its natural-language
specification.

The development shallowly embeds the parts of the program that the claims are
about:

* the win/loss-ratio display formulas of `StatsContent` (both the inline
  ternary of the first component version and `calculateWinLossRatio` of the
  second), with JavaScript numbers modelled as `JsNum` (a rational, an
  infinity, or NaN);
* the proxy relay handler `GET` of `route.ts`;
* the view-controller lifecycle of the `StakeStats` component (`fetchStats`
  with its `AbortController` supersession, the change handlers, the
  `useEffect` mount/cleanup/re-run and its 10-second interval) as a
  deterministic event machine `Machine` driven by scripts of `UiAction`s, with
  React's semantics made explicit: a handler's call to `fetchStats` uses the
  closure of the render it was created in (the state values at handler entry),
  and a state-setter invocation on an unmounted component is recorded in the
  event log but does not change the state;
* the CSV export (`fetchGameStats`, `exportData`).
-/

/-! ## JavaScript numbers and formatting -/

/-- A JavaScript number as the claims need it: a finite value (modelled as an
exact rational; IEEE-754 rounding is outside the scope of the claims), one of
the two infinities, or NaN. -/
inductive JsNum where
  | fin (q : ℚ)
  | inf
  | negInf
  | nan
deriving DecidableEq, Repr

/-- JavaScript division `a / b`. Only finite and NaN operands arise in this
embedding (NaN comes from `parseInt` on a malformed string); division by the
number 0 yields an infinity or NaN depending on the sign of the dividend. -/
def jsDiv : JsNum → JsNum → JsNum
  | JsNum.fin a, JsNum.fin b =>
      if b = 0 then (if 0 < a then JsNum.inf else if a < 0 then JsNum.negInf else JsNum.nan)
      else JsNum.fin (a / b)
  | _, _ => JsNum.nan

/-- Rounding to two decimal places (the numeric content of `toFixed(2)` for
the non-negative values that occur here): nearest hundredth, ties up. -/
def round2 (q : ℚ) : ℚ :=
  ((Int.floor (q * 100 + 1 / 2) : ℤ) : ℚ) / 100

/-- Decimal rendering of `toFixed(2)` for a non-negative rational. -/
def fixed2 (q : ℚ) : String :=
  let n : ℕ := (Int.floor (q * 100 + 1 / 2)).toNat
  toString (n / 100) ++ "." ++ (if n % 100 < 10 then "0" else "") ++ toString (n % 100)

/-- JavaScript `x.toFixed(2)` on a `JsNum`: `Infinity`, `-Infinity` and `NaN`
render as their names. -/
def jsToFixed2 : JsNum → String
  | JsNum.fin q => fixed2 q
  | JsNum.inf => "Infinity"
  | JsNum.negInf => "-Infinity"
  | JsNum.nan => "NaN"

/-- JavaScript `Number(x.toFixed(2))`: a finite value is rounded to two
decimals, the non-finite values round-trip to themselves. -/
def jsRound2 : JsNum → JsNum
  | JsNum.fin q => JsNum.fin (round2 q)
  | JsNum.inf => JsNum.inf
  | JsNum.negInf => JsNum.negInf
  | JsNum.nan => JsNum.nan

/-- JavaScript `0 < x` with a `JsNum` on the right. -/
def jsGtZero : JsNum → Bool
  | JsNum.fin a => decide (0 < a)
  | JsNum.inf => true
  | _ => false

/-- Numeric value of a list of decimal digit characters. -/
def natFromDigits (ds : List Char) : ℕ :=
  ds.foldl (fun acc c => acc * 10 + (c.toNat - 48)) 0

/-- JavaScript `parseInt(s, 10)` restricted to the inputs that occur here
(strings produced by thousands-separated numeric formatting): the longest
leading run of digits is parsed, and a string with no leading digit gives
NaN. -/
def parseIntJs (s : List Char) : JsNum :=
  let ds := s.takeWhile Char.isDigit
  if ds.isEmpty then JsNum.nan else JsNum.fin ((natFromDigits ds : ℕ) : ℚ)

/-! ## The win/loss ratio formulas of `StatsContent` -/

/-- The inline ratio of the first `StatsContent` version (homepage.tsx line
309): `stats.losses > 0 ? (stats.wins / stats.losses).toFixed(2) :
stats.wins > 0 ? "∞" : "0.00"`. -/
def winLossRatio (wins losses : ℚ) : String :=
  if 0 < losses then jsToFixed2 (jsDiv (JsNum.fin wins) (JsNum.fin losses))
  else if 0 < wins then "∞" else "0.00"

/-- A raw `wins`/`losses` input of `calculateWinLossRatio`: the TypeScript
signature is `number | string`. -/
inductive RawNum where
  | num (q : ℚ)
  | str (s : List Char)

/-- The normalisation step of `calculateWinLossRatio`:
`typeof x === 'string' ? parseInt(x.replace(/,/g, ''), 10) : x`. -/
def cleanNum : RawNum → JsNum
  | RawNum.num q => JsNum.fin q
  | RawNum.str s => parseIntJs (s.filter (fun c => c ≠ ','))

/-- `calculateWinLossRatio` of the second `StatsContent` version (homepage.tsx
lines 894-910): normalise both inputs, return `999.99` or `0` when the
cleaned losses are `0`, otherwise `Number((wins / losses).toFixed(2))`. -/
def calculateWinLossRatio (wins losses : RawNum) : JsNum :=
  let cleanWins := cleanNum wins
  let cleanLosses := cleanNum losses
  if cleanLosses = JsNum.fin 0 then
    (if jsGtZero cleanWins then JsNum.fin (999.99 : ℚ) else JsNum.fin 0)
  else
    jsRound2 (jsDiv cleanWins cleanLosses)

/-! ## JSON values -/

/-- A JSON value, the payload type flowing through the relay and into
`setStats`. -/
inductive Json where
  | null
  | bool (b : Bool)
  | num (q : ℚ)
  | str (s : String)
  | arr (elems : List Json)
  | obj (fields : List (String × Json))

/-- The client-side validity check of `fetchStats`:
`!data || typeof data !== 'object'` throws, so exactly objects and arrays are
accepted (`null` is falsy, primitives are not of type `object`). -/
def isObjectLike : Json → Bool
  | Json.obj _ => true
  | Json.arr _ => true
  | _ => false

/-! ## The proxy relay (`src/app/api/proxy/[...path]/route.ts`) -/

/-- Upstream base URL constant of `route.ts`. -/
def API_BASE_URL : String := "http://163.5.160.51:3000/api"

/-- Replace the first occurrence of `pat` in `s` by `rep` (JavaScript
`String.prototype.replace` with a plain-string pattern). -/
def replaceFirst : List Char → List Char → List Char → List Char
  | [], _, _ => []
  | c :: rest, pat, rep =>
      if (c :: rest).take pat.length = pat then rep ++ (c :: rest).drop pat.length
      else c :: replaceFirst rest pat rep

/-- `pathname.replace('/api/proxy/', '')` followed by
`` `${API_BASE_URL}/${path}` ``. -/
def buildUpstreamUrl (pathname : String) : String :=
  API_BASE_URL ++ "/" ++ String.mk (replaceFirst pathname.data "/api/proxy/".data [])

/-- What the upstream `fetch` inside the relay can do: reject with
`TypeError: fetch failed` (connection failure), reject with any other error
(for example a timeout), or produce a response with a status and a body that
either parses as JSON or does not. -/
inductive UpstreamOutcome where
  | fetchFailed
  | otherError
  | response (status : ℕ) (body : Option Json)

/-- `response.ok`: status in the inclusive range 200-299. -/
def responseOk (status : ℕ) : Bool :=
  decide (200 ≤ status ∧ status ≤ 299)

/-- Error message of the 503 branch of the relay. -/
def connectErrorMsg : String := "Unable to connect to the API server. Please try again later."

/-- Error message of the 500 branch of the relay. -/
def unexpectedErrorMsg : String := "An unexpected error occurred. Please try again later."

/-- The normalised error envelope `NextResponse.json({ error: msg })`. -/
def errEnvelope (msg : String) : Json :=
  Json.obj [("error", Json.str msg)]

/-- The `GET` handler of `route.ts` as a function from the upstream outcome to
the client-visible status and JSON body: a non-ok status throws, a body parse
failure throws, and the catch block maps `TypeError: fetch failed` to 503 and
everything else to 500, always with an `{error: string}` envelope. -/
def relayGET : UpstreamOutcome → ℕ × Json
  | UpstreamOutcome.fetchFailed => (503, errEnvelope connectErrorMsg)
  | UpstreamOutcome.otherError => (500, errEnvelope unexpectedErrorMsg)
  | UpstreamOutcome.response status body =>
      if responseOk status then
        match body with
        | some data => (200, data)
        | none => (500, errEnvelope unexpectedErrorMsg)
      else (500, errEnvelope unexpectedErrorMsg)

/-- An upstream outcome counts as a success for the relay when the status is
ok and the body parses. -/
def upstreamSuccess : UpstreamOutcome → Bool
  | UpstreamOutcome.response status (some _) => responseOk status
  | _ => false

/-- A JSON value of the shape `{error: <string>}`. -/
def isErrorEnvelope (j : Json) : Prop :=
  ∃ msg, j = Json.obj [("error", Json.str msg)]

/-! ## The view controller (`StakeStats` in `src/components/homepage.tsx`)

The component is embedded as a deterministic event machine.  React's
event-loop semantics are made explicit:

* a change handler runs synchronously: its state-setter calls take effect
  (batched) and its call to `fetchStats` uses the `useCallback` closure of the
  current render, i.e. the parameter values at handler entry, not the values
  just passed to the setters;
* after a render in which the `useCallback` dependencies changed, the
  `useEffect` whose dependency list is `[fetchStats]` re-runs: its cleanup
  clears the interval and aborts the current controller, then the effect body
  calls `fetchStats` (now closing over the new values) and re-arms the
  interval;
* a state-setter call on an unmounted component is recorded in the event log
  (with `whileMounted = false`) but leaves the state unchanged, matching
  React ignoring updates to unmounted components.
-/

/-- The `useState` cells of `StakeStats`. -/
structure ViewState where
  timeframe : String
  stats : Option Json
  selectedGame : String
  loading : Bool
  activeTab : String
  error : Option String

/-- The parameter values a `fetchStats` closure captures. -/
structure Params where
  timeframe : String
  selectedGame : String
  activeTab : String

/-- The request parameters visible in a render's closures. -/
def paramsOf (s : ViewState) : Params :=
  { timeframe := s.timeframe, selectedGame := s.selectedGame, activeTab := s.activeTab }

/-- JavaScript `toLowerCase()` for the ASCII game names: lower-case each
character. -/
def toLowerStr (s : String) : String :=
  String.mk (s.data.map Char.toLower)

/-- Endpoint construction inside `fetchStats`: the game endpoint when
`activeTab === 'game' && selectedGame` (a non-empty string is truthy), with
the game name lower-cased; otherwise the overall endpoint. -/
def endpointFor (p : Params) : String :=
  if p.activeTab = "game" ∧ p.selectedGame ≠ "" then
    "/api/proxy/stats/game/" ++ p.timeframe ++ "/" ++ toLowerStr p.selectedGame
  else
    "/api/proxy/stats/" ++ p.timeframe

/-- A fetch that has been issued and has not yet settled.  `aborted` records
whether its `AbortController` has been aborted. -/
structure PendingFetch where
  id : ℕ
  endpoint : String
  aborted : Bool
deriving DecidableEq, Repr

/-- How a non-aborted client fetch can settle: a parsed JSON body from an ok
response, a non-2xx status (`!response.ok` throws), or a network error whose
message is surfaced.  Settlement of an aborted fetch always takes the
`AbortError` path regardless of this value. -/
inductive FetchOutcomeC where
  | success (data : Json)
  | httpError (status : ℕ)
  | networkError (msg : String)

/-- One entry of the instrumentation log: each state-setter invocation for
`stats`, `error` and `loading` (tagged with whether the component was still
mounted), each issued request, each abort, and the unmount itself. -/
inductive LogEv where
  | writeStats (whileMounted : Bool)
  | writeError (whileMounted : Bool)
  | writeLoading (v : Bool) (whileMounted : Bool)
  | issue (id : ℕ) (endpoint : String)
  | abortReq (id : ℕ)
  | unmounted
deriving DecidableEq, Repr

/-- The full machine state: the component state, the `abortControllerRef`
(`ctrl` is the id owned by the current controller), the in-flight fetches,
the interval (present while armed, holding the params its callback closes
over), the id supply, the mounted flag and the event log. -/
structure Machine where
  st : ViewState
  ctrl : Option ℕ
  pending : List PendingFetch
  intervalClosure : Option Params
  nextId : ℕ
  mounted : Bool
  log : List LogEv

/-- Apply a state update only while mounted (React drops setter calls on an
unmounted component). -/
def updSt (f : ViewState → ViewState) (m : Machine) : Machine :=
  { m with st := if m.mounted then f m.st else m.st }

/-- `setStats` with logging. -/
def setStatsM (v : Option Json) (m : Machine) : Machine :=
  let m1 := updSt (fun s => { s with stats := v }) m
  { m1 with log := m1.log ++ [LogEv.writeStats m.mounted] }

/-- `setError` with logging. -/
def setErrorM (v : Option String) (m : Machine) : Machine :=
  let m1 := updSt (fun s => { s with error := v }) m
  { m1 with log := m1.log ++ [LogEv.writeError m.mounted] }

/-- `setLoading` with logging. -/
def setLoadingM (v : Bool) (m : Machine) : Machine :=
  let m1 := updSt (fun s => { s with loading := v }) m
  { m1 with log := m1.log ++ [LogEv.writeLoading v m.mounted] }

/-- `abortControllerRef.current.abort()` on controller `i`: mark the fetch it
owns as aborted. -/
def abortPending (i : ℕ) (m : Machine) : Machine :=
  { m with
    pending := m.pending.map (fun pf => if pf.id = i then { pf with aborted := true } else pf),
    log := m.log ++ [LogEv.abortReq i] }

/-- The synchronous part of `fetchStats`, closing over params `p`: abort any
prior controller, install a fresh one, `setLoading(true)`, `setError(null)`,
build the endpoint from the captured params and issue the request. -/
def fetchStatsStart (p : Params) (m : Machine) : Machine :=
  let m1 := match m.ctrl with
    | some i => abortPending i m
    | none => m
  let id := m1.nextId
  let m2 := { m1 with ctrl := some id, nextId := id + 1 }
  let m3 := setErrorM none (setLoadingM true m2)
  let ep := endpointFor p
  { m3 with
    pending := m3.pending ++ [{ id := id, endpoint := ep, aborted := false }],
    log := m3.log ++ [LogEv.issue id ep] }

/-- Message of the `Invalid data format received` throw. -/
def invalidDataMsg : String := "Invalid data format received"

/-- Message of the `Server responded with status N` throw. -/
def statusMsg (status : ℕ) : String :=
  "Server responded with status " ++ toString status

/-- The continuation of a non-aborted `fetchStats` call: the success path
validates the body and stores it (`setStats`, `setError(null)`), every error
path sets the human-readable message, and the `finally` clause clears
`loading`. -/
def settleOutcome (o : FetchOutcomeC) (m : Machine) : Machine :=
  match o with
  | FetchOutcomeC.success d =>
      if isObjectLike d then setLoadingM false (setErrorM none (setStatsM (some d) m))
      else setLoadingM false (setErrorM (some invalidDataMsg) m)
  | FetchOutcomeC.httpError status => setLoadingM false (setErrorM (some (statusMsg status)) m)
  | FetchOutcomeC.networkError msg => setLoadingM false (setErrorM (some msg) m)

/-- Settlement of fetch `i`: an aborted fetch rejects with `AbortError`, whose
catch branch only logs to the console, so the sole setter reached is the
`finally` clause's `setLoading(false)`; a live fetch runs `settleOutcome`. -/
def resolveFetch (i : ℕ) (o : FetchOutcomeC) (m : Machine) : Machine :=
  match m.pending.find? (fun pf => pf.id == i) with
  | none => m
  | some pf =>
      let m1 := { m with pending := m.pending.filter (fun pf => !(pf.id == i)) }
      if pf.aborted then setLoadingM false m1
      else settleOutcome o m1

/-- `handleTimeframeChange`: `setTimeframe`, `setStats(null)`, `fetchStats()`
(with the closure of the current render, i.e. the params at entry). -/
def handleTimeframeChange (tf : String) (m : Machine) : Machine :=
  let p := paramsOf m.st
  let m1 := updSt (fun s => { s with timeframe := tf }) m
  let m2 := setStatsM none m1
  fetchStatsStart p m2

/-- `handleGameChange`: `setSelectedGame`, `setStats(null)`, `fetchStats()`. -/
def handleGameChange (g : String) (m : Machine) : Machine :=
  let p := paramsOf m.st
  let m1 := updSt (fun s => { s with selectedGame := g }) m
  let m2 := setStatsM none m1
  fetchStatsStart p m2

/-- `handleTabChange`: `setActiveTab`, `setStats(null)`, clear `selectedGame`
only when the new tab is `'overall'`, then `fetchStats()`. -/
def handleTabChange (t : String) (m : Machine) : Machine :=
  let p := paramsOf m.st
  let m1 := updSt (fun s => { s with activeTab := t }) m
  let m2 := setStatsM none m1
  let m3 := if t = "overall" then updSt (fun s => { s with selectedGame := "" }) m2 else m2
  fetchStatsStart p m3

/-- The `useEffect` cleanup: `clearInterval` and abort the current
controller. -/
def effectCleanup (m : Machine) : Machine :=
  let m1 := { m with intervalClosure := none }
  match m1.ctrl with
  | some i => abortPending i m1
  | none => m1

/-- The `useEffect` body: `fetchStats()` with the current render's params and
`setInterval(fetchStats, 10000)` (the interval callback closes over the same
params). -/
def effectBody (m : Machine) : Machine :=
  let p := paramsOf m.st
  let m1 := fetchStatsStart p m
  { m1 with intervalClosure := some p }

/-- Unmount: run the effect cleanup, then the component is gone. -/
def unmountM (m : Machine) : Machine :=
  let m1 := effectCleanup m
  { m1 with mounted := false, log := m1.log ++ [LogEv.unmounted] }

/-- External stimuli driving the machine. `mountEffect` is the first effect
run after mount; `effectRerun` is the cleanup-plus-rerun React performs after
a render in which `fetchStats` was re-created; `tick` is an interval firing;
`resolveF i o` is the settlement of fetch `i`. -/
inductive UiAction where
  | timeframeChange (tf : String)
  | gameChange (g : String)
  | tabChange (t : String)
  | mountEffect
  | effectRerun
  | tick
  | resolveF (i : ℕ) (o : FetchOutcomeC)
  | unmount

/-- One machine step. -/
def step (m : Machine) : UiAction → Machine
  | UiAction.timeframeChange tf => handleTimeframeChange tf m
  | UiAction.gameChange g => handleGameChange g m
  | UiAction.tabChange t => handleTabChange t m
  | UiAction.mountEffect => effectBody m
  | UiAction.effectRerun => effectBody (effectCleanup m)
  | UiAction.tick =>
      match m.intervalClosure with
      | some p => fetchStatsStart p m
      | none => m
  | UiAction.resolveF i o => resolveFetch i o m
  | UiAction.unmount => unmountM m

/-- Run a script of actions. -/
def run (m : Machine) (as : List UiAction) : Machine :=
  as.foldl step m

/-- The initial machine: the `useState` initial values of `StakeStats`, no
controller, nothing pending, no interval, mounted, empty log. -/
def initMachine : Machine :=
  { st := { timeframe := "overall", stats := none, selectedGame := "",
            loading := true, activeTab := "overall", error := none },
    ctrl := none, pending := [], intervalClosure := none,
    nextId := 0, mounted := true, log := [] }

/-- The endpoints of the issued requests, in issue order. -/
def issuedEndpoints (log : List LogEv) : List String :=
  log.filterMap (fun e => match e with
    | LogEv.issue _ ep => some ep
    | _ => none)

/-- What a settlement outcome leaves in `stats`, given the previous value:
only a validated success body replaces it. -/
def outcomeStats (o : FetchOutcomeC) (prev : Option Json) : Option Json :=
  match o with
  | FetchOutcomeC.success d => if isObjectLike d then some d else prev
  | _ => prev

/-- What a settlement outcome leaves in `error`. -/
def outcomeError (o : FetchOutcomeC) : Option String :=
  match o with
  | FetchOutcomeC.success d => if isObjectLike d then none else some invalidDataMsg
  | FetchOutcomeC.httpError status => some (statusMsg status)
  | FetchOutcomeC.networkError msg => some msg

/-- The message a non-cancellation failure outcome surfaces, `none` for a
validated success. -/
def failureMessage : FetchOutcomeC → Option String
  | FetchOutcomeC.success d => if isObjectLike d then none else some invalidDataMsg
  | FetchOutcomeC.httpError status => some (statusMsg status)
  | FetchOutcomeC.networkError msg => some msg

/-! ## The CSV export (`StatsSection` of the second component version) -/

/-- The fixed game catalog. -/
def games : List String :=
  ["Baccarat", "Blackjack", "Crash", "Diamonds", "Dice", "Hilo", "Keno", "Limbo",
   "Mines", "Plinko", "Roulette", "Slide", "Wheel"]

/-- A stats payload as the export code reads it (the `GameStats` interface,
with JavaScript numbers taken at their exact rational values). -/
structure GameStatsQ where
  wins : ℚ
  losses : ℚ
  gamesPlayed : ℚ
  winPercentage : ℚ
  lossPercentage : ℚ
deriving DecidableEq, Repr

/-- What the per-game fetch inside the export can do: a response with its
`ok` flag and (when the body parses) a payload, or a network error. -/
inductive GameFetchOutcome where
  | response (ok : Bool) (body : Option GameStatsQ)
  | networkError
deriving DecidableEq, Repr

/-- `fetchGameStats` (homepage.tsx lines 684-698): `!response.ok` throws, a
body parse failure throws, and the catch block returns `null` for every
failure, so only an ok response with a parsed body yields data. -/
def fetchGameStats : GameFetchOutcome → Option GameStatsQ
  | GameFetchOutcome.response true (some d) => some d
  | _ => none

/-- Thousands grouping of a digit list given least-significant first. -/
def groupRev : List Char → List Char
  | a :: b :: c :: d :: rest => a :: b :: c :: ',' :: groupRev (d :: rest)
  | l => l

/-- `n.toLocaleString()` for a natural number: digits with a comma every
three, from the right. -/
def natGrouped (n : ℕ) : String :=
  String.mk (groupRev (Nat.toDigits 10 n).reverse).reverse

/-- `x.toLocaleString()` as used on the stats fields.  The stats numbers are
non-negative integers; other rationals (which do not occur in the verified
scenarios) fall back to a plain rendering. -/
def jsToLocaleString (q : ℚ) : String :=
  if q.den = 1 ∧ 0 ≤ q.num then natGrouped q.num.toNat else toString q

/-- Template-literal rendering of a number (used for the percentage cells).
Integral values render as their digits, as in JavaScript; non-integral values
(not used by the theorems) fall back to a plain rendering. -/
def qToString (q : ℚ) : String :=
  if q.den = 1 then toString q.num else toString q

/-- The overall Win/Loss Ratio cell of the export (homepage.tsx line 724):
`(stats.wins / stats.losses).toFixed(2)` with no zero-divisor guard. -/
def overallRatioCell (s : GameStatsQ) : String :=
  jsToFixed2 (jsDiv (JsNum.fin s.wins) (JsNum.fin s.losses))

/-- The per-game Win/Loss Ratio cell of the export (homepage.tsx line 733):
`gameData.losses > 0 ? (gameData.wins / gameData.losses).toFixed(2) :
gameData.wins > 0 ? '∞' : '0.00'`. -/
def perGameRatioCell (d : GameStatsQ) : String :=
  if 0 < d.losses then jsToFixed2 (jsDiv (JsNum.fin d.wins) (JsNum.fin d.losses))
  else if 0 < d.wins then "∞" else "0.00"

/-- One per-game CSV row (homepage.tsx lines 734-742). -/
def gameRow (g : String) (d : GameStatsQ) : List String :=
  [g, jsToLocaleString d.gamesPlayed, jsToLocaleString d.wins, jsToLocaleString d.losses,
   qToString d.winPercentage ++ "%", qToString d.lossPercentage ++ "%", perGameRatioCell d]

/-- The header and overall-statistics block of `csvRows` (homepage.tsx lines
714-728), with the `Date` rendering passed in as `generatedAt`. -/
def overallRows (generatedAt timeframe : String) (s : GameStatsQ) : List (List String) :=
  [["Stake Statistics Export"],
   ["Generated at:", generatedAt],
   ["Timeframe:", timeframe],
   [""],
   ["Overall Statistics"],
   ["Metric", "Value", "Percentage"],
   ["Games Played", jsToLocaleString s.gamesPlayed, ""],
   ["Wins", jsToLocaleString s.wins, qToString s.winPercentage ++ "%"],
   ["Losses", jsToLocaleString s.losses, qToString s.lossPercentage ++ "%"],
   ["Win/Loss Ratio", overallRatioCell s, ""],
   [""],
   ["Individual Game Statistics"],
   ["Game", "Games Played", "Wins", "Losses", "Win %", "Loss %", "Win/Loss Ratio"]]

/-- The per-game rows: `gameStats.forEach` pushes a row only when `gameData`
is non-null. -/
def gameRowsOf (outcomes : String → GameFetchOutcome) : List (List String) :=
  games.filterMap (fun g => (fetchGameStats (outcomes g)).map (gameRow g))

/-- `exportData`: bail out when `stats` is null, otherwise fetch every game in
the catalog (each failure yielding `null`, never a rejection, so the batch
always completes) and assemble the CSV rows. -/
def exportData (generatedAt timeframe : String) (stats : Option GameStatsQ)
    (outcomes : String → GameFetchOutcome) : Option (List (List String)) :=
  match stats with
  | none => none
  | some s => some (overallRows generatedAt timeframe s ++ gameRowsOf outcomes)

/-! ## Claims -/

/-- Claim C2: for every (wins, losses) — after normalizing any
thousands-separator-formatted numeric string into an integer — the displayed
ratio equals wins/losses rounded to two decimal places when losses > 0; when
losses == 0 it equals an infinite sentinel ("∞" in the inline formula,
999.99 in `calculateWinLossRatio`) if wins > 0 and zero if wins == 0, never a
crash or NaN: both ratio functions are total and, on normalized integer
inputs, always produce the finite rounded quotient or the documented
sentinel. -/
theorem C2_win_loss_ratio_formula :
    (∀ w l : ℕ, 0 < l → winLossRatio (w : ℚ) (l : ℚ) = fixed2 ((w : ℚ) / (l : ℚ))) ∧
    (∀ w : ℕ, 0 < w → winLossRatio (w : ℚ) 0 = "∞") ∧
    (winLossRatio 0 0 = "0.00") ∧
    (∀ (rw rl : RawNum) (w l : ℕ),
      cleanNum rw = JsNum.fin (w : ℚ) → cleanNum rl = JsNum.fin (l : ℚ) →
      calculateWinLossRatio rw rl =
        (if l = 0 then (if 0 < w then JsNum.fin (999.99 : ℚ) else JsNum.fin 0)
         else JsNum.fin (round2 ((w : ℚ) / (l : ℚ))))) := by
  refine ⟨?_, ?_, ?_, ?_⟩
  · intro w l hl
    have hlq : (0 : ℚ) < (l : ℚ) := by exact_mod_cast hl
    have hne : (l : ℚ) ≠ 0 := ne_of_gt hlq
    simp [winLossRatio, jsDiv, jsToFixed2, hlq, hne]
  · intro w hw
    have hwq : (0 : ℚ) < (w : ℚ) := by exact_mod_cast hw
    simp [winLossRatio, hwq]
  · decide
  · intro rw rl w l hw hl
    by_cases hl0 : l = 0
    · subst hl0
      simp [calculateWinLossRatio, hw, hl, jsGtZero, Nat.cast_pos]
    · have hlq : (l : ℚ) ≠ 0 := by exact_mod_cast hl0
      simp [calculateWinLossRatio, hw, hl, hlq, hl0, jsDiv, jsRound2]

/-- Witness for C2: concrete evaluations discharging each hypothesis — the
spec's own example 150/50 → "3.00", the sentinel cases, and a
thousands-separated string input "1,500" normalizing to 1500. -/
theorem C2_witness :
    ((0 : ℕ) < 50 ∧ winLossRatio (150 : ℕ) (50 : ℕ) = fixed2 ((150 : ℚ) / 50)) ∧
    ((0 : ℕ) < 10 ∧ winLossRatio (10 : ℕ) 0 = "∞") ∧
    (cleanNum (RawNum.str ("1,500".data)) = JsNum.fin ((1500 : ℕ) : ℚ) ∧
     cleanNum (RawNum.num 0) = JsNum.fin ((0 : ℕ) : ℚ) ∧
     calculateWinLossRatio (RawNum.str ("1,500".data)) (RawNum.num 0) =
       (if (0 : ℕ) = 0 then (if 0 < 1500 then JsNum.fin (999.99 : ℚ) else JsNum.fin 0)
        else JsNum.fin (round2 ((1500 : ℚ) / (0 : ℚ))))) :=
  ⟨⟨by decide, C2_win_loss_ratio_formula.1 150 50 (by decide)⟩,
   ⟨by decide, C2_win_loss_ratio_formula.2.1 10 (by decide)⟩,
   ⟨by decide, by decide,
    C2_win_loss_ratio_formula.2.2.2 (RawNum.str ("1,500".data)) (RawNum.num 0) 1500 0
      (by decide) (by decide)⟩⟩

/-- Claim C3: for every GET request handled by the proxy relay, an upstream
connection failure yields HTTP 503 with an `{error: string}` body, and every
other failure (non-2xx upstream status, body parse failure, timeout or other
rejection) yields HTTP 500 with an `{error: string}` body — exactly those two
failure statuses, with 503 exactly on connection failure, and the handler is
total (no exception escapes). -/
theorem C3_relay_error_mapping :
    ∀ o : UpstreamOutcome, upstreamSuccess o = false →
      (((relayGET o).1 = 503 ∨ (relayGET o).1 = 500) ∧ isErrorEnvelope (relayGET o).2) ∧
      ((relayGET o).1 = 503 ↔ o = UpstreamOutcome.fetchFailed) := by
  intro o h
  cases o with
  | fetchFailed =>
      exact ⟨⟨Or.inl rfl, ⟨connectErrorMsg, rfl⟩⟩, by simp [relayGET]⟩
  | otherError =>
      refine ⟨⟨Or.inr rfl, ⟨unexpectedErrorMsg, rfl⟩⟩, ?_⟩
      simp [relayGET]
  | response status body =>
      cases body with
      | none =>
          by_cases hok : responseOk status = true
          · refine ⟨⟨Or.inr ?_, ⟨unexpectedErrorMsg, ?_⟩⟩, ?_⟩ <;>
              simp [relayGET, hok, errEnvelope]
          · refine ⟨⟨Or.inr ?_, ⟨unexpectedErrorMsg, ?_⟩⟩, ?_⟩ <;>
              simp [relayGET, Bool.eq_false_iff.mpr hok, errEnvelope]
      | some j =>
          have hok : responseOk status = false := by
            simpa [upstreamSuccess] using h
          refine ⟨⟨Or.inr ?_, ⟨unexpectedErrorMsg, ?_⟩⟩, ?_⟩ <;>
            simp [relayGET, hok, errEnvelope]

/-- Witness for C3: the spec's own examples — a connection failure maps to
503, an upstream 404 maps to 500, both with the error envelope. -/
theorem C3_witness :
    (upstreamSuccess UpstreamOutcome.fetchFailed = false ∧
      (relayGET UpstreamOutcome.fetchFailed).1 = 503) ∧
    (upstreamSuccess (UpstreamOutcome.response 404 none) = false ∧
      (relayGET (UpstreamOutcome.response 404 none)).1 = 500 ∧
      isErrorEnvelope (relayGET (UpstreamOutcome.response 404 none)).2) :=
  ⟨⟨rfl, ((C3_relay_error_mapping UpstreamOutcome.fetchFailed rfl).2).mpr rfl⟩,
   ⟨rfl,
    (((C3_relay_error_mapping (UpstreamOutcome.response 404 none) rfl).1).1).resolve_left
      (by decide),
    ((C3_relay_error_mapping (UpstreamOutcome.response 404 none) rfl).1).2⟩⟩

/-- Taking the length of the left part of an append returns the left part. -/
theorem take_len_append (l₁ l₂ : List Char) : (l₁ ++ l₂).take l₁.length = l₁ := by
  induction l₁ with
  | nil => rfl
  | cons a t ih => simp [ih]

/-- Dropping the length of the left part of an append returns the right
part. -/
theorem drop_len_append (l₁ l₂ : List Char) : (l₁ ++ l₂).drop l₁.length = l₂ := by
  induction l₁ with
  | nil => rfl
  | cons a t ih => simp [ih]

/-- Replacing a non-empty pattern sitting at the head of the string by the
empty replacement strips it. -/
theorem replaceFirst_of_leading (pat rest : List Char) (hne : pat ≠ []) :
    replaceFirst (pat ++ rest) pat [] = rest := by
  cases pat with
  | nil => exact absurd rfl hne
  | cons p ps =>
      show replaceFirst (p :: (ps ++ rest)) (p :: ps) [] = rest
      rw [replaceFirst]
      rw [show p :: (ps ++ rest) = (p :: ps) ++ rest from rfl]
      rw [take_len_append, drop_len_append]
      simp

/-- Claim C7: for every GET request whose path begins with the fixed mount
prefix `/api/proxy/`, the relay strips the prefix and concatenates the
remainder onto the configured upstream base URL, and on upstream success
(status 200, body parsed) returns the upstream's JSON body unchanged with
HTTP 200. -/
theorem C7_relay_forwarding :
    ∀ (rest : String) (j : Json),
      buildUpstreamUrl ("/api/proxy/" ++ rest) = API_BASE_URL ++ "/" ++ rest ∧
      relayGET (UpstreamOutcome.response 200 (some j)) = (200, j) := by
  intro rest j
  constructor
  · unfold buildUpstreamUrl
    have hdata : ("/api/proxy/" ++ rest).data = "/api/proxy/".data ++ rest.data := by
      simp [String.data_append]
    rw [hdata, replaceFirst_of_leading _ _ (by decide)]
  · simp [relayGET, responseOk]

/-- Claim C10 (implicit): in the export, the overall Win/Loss Ratio row is
computed as `wins / losses` with no zero-divisor guard, so for `losses == 0`
it emits a non-finite value rendered as text (`Infinity` when wins > 0, `NaN`
when wins == 0), whereas each per-game row applies the `∞`/`0.00` sentinel
guard — and on a concrete input the two ratio formulas of one export artifact
disagree. -/
theorem C10_export_ratio_divergence :
    (∀ s : GameStatsQ, s.losses = 0 → 0 < s.wins → overallRatioCell s = "Infinity") ∧
    (∀ s : GameStatsQ, s.losses = 0 → s.wins = 0 → overallRatioCell s = "NaN") ∧
    (overallRatioCell ⟨10, 0, 10, 100, 0⟩ = "Infinity" ∧
     perGameRatioCell ⟨10, 0, 10, 100, 0⟩ = "∞" ∧
     overallRatioCell ⟨10, 0, 10, 100, 0⟩ ≠ perGameRatioCell ⟨10, 0, 10, 100, 0⟩) := by
  refine ⟨?_, ?_, by decide, by decide, by decide⟩
  · intro s hl hw
    simp [overallRatioCell, jsDiv, hl, hw, jsToFixed2]
  · intro s hl hw
    simp [overallRatioCell, jsDiv, hl, hw, jsToFixed2]

/-- Witness for C10: the guard-free overall formula evaluated at wins = 10,
losses = 0 and at wins = 0, losses = 0. -/
theorem C10_witness :
    overallRatioCell ⟨10, 0, 30, 100, 0⟩ = "Infinity" ∧
    overallRatioCell ⟨0, 0, 0, 0, 0⟩ = "NaN" :=
  ⟨C10_export_ratio_divergence.1 ⟨10, 0, 30, 100, 0⟩ rfl (by decide),
   C10_export_ratio_divergence.2.1 ⟨0, 0, 0, 0, 0⟩ rfl rfl⟩

/-- Claim C9: in the export-all-data batch, a failure fetching an individual
game's statistics only omits that game's row (no row headed by that game
appears); every game whose fetch succeeded still contributes its row, and the
artifact is still assembled in full (the batch is not aborted and no error is
surfaced — `exportData` is total and always returns the complete row list). -/
theorem C9_export_batch_tolerance :
    ∀ (outcomes : String → GameFetchOutcome) (g : String), g ∈ games →
      (fetchGameStats (outcomes g) = none →
        ∀ row ∈ gameRowsOf outcomes, row.head? ≠ some g) ∧
      (∀ g2 ∈ games, ∀ d, fetchGameStats (outcomes g2) = some d →
        gameRow g2 d ∈ gameRowsOf outcomes) ∧
      (∀ genAt tf s, exportData genAt tf (some s) outcomes =
        some (overallRows genAt tf s ++ gameRowsOf outcomes)) := by
  intro outcomes g hg
  refine ⟨?_, ?_, fun genAt tf s => rfl⟩
  · intro hnone row hrow heq
    rcases List.mem_filterMap.mp hrow with ⟨g2, hg2, hmap⟩
    rcases Option.map_eq_some'.mp hmap with ⟨d, hd, hrowEq⟩
    have hhead : row.head? = some g2 := by
      rw [← hrowEq]; rfl
    rw [hhead] at heq
    have : g2 = g := Option.some.inj heq
    rw [this] at hd
    rw [hd] at hnone
    exact Option.noConfusion hnone
  · intro g2 hg2 d hd
    exact List.mem_filterMap.mpr ⟨g2, hg2, by rw [hd]; rfl⟩

/-- Witness for C9: a batch in which the Dice fetch fails with a network
error and every other game succeeds — Dice's row is absent, Hilo's row is
present, and the artifact is produced. -/
theorem C9_witness :
    ("Dice" ∈ games ∧
     fetchGameStats ((fun g => if g = "Dice" then GameFetchOutcome.networkError
       else GameFetchOutcome.response true (some ⟨1, 2, 3, 50, 50⟩)) "Dice") = none ∧
     "Hilo" ∈ games ∧
     gameRow "Hilo" ⟨1, 2, 3, 50, 50⟩ ∈
       gameRowsOf (fun g => if g = "Dice" then GameFetchOutcome.networkError
         else GameFetchOutcome.response true (some ⟨1, 2, 3, 50, 50⟩)) ∧
     exportData "now" "overall" (some ⟨5, 6, 11, 45, 55⟩)
       (fun g => if g = "Dice" then GameFetchOutcome.networkError
         else GameFetchOutcome.response true (some ⟨1, 2, 3, 50, 50⟩)) =
       some (overallRows "now" "overall" ⟨5, 6, 11, 45, 55⟩ ++
         gameRowsOf (fun g => if g = "Dice" then GameFetchOutcome.networkError
           else GameFetchOutcome.response true (some ⟨1, 2, 3, 50, 50⟩)))) :=
  ⟨by decide, by decide, by decide,
   (C9_export_batch_tolerance
     (fun g => if g = "Dice" then GameFetchOutcome.networkError
       else GameFetchOutcome.response true (some ⟨1, 2, 3, 50, 50⟩)) "Dice"
     (by decide)).2.1 "Hilo" (by decide) ⟨1, 2, 3, 50, 50⟩ (by decide),
   (C9_export_batch_tolerance
     (fun g => if g = "Dice" then GameFetchOutcome.networkError
       else GameFetchOutcome.response true (some ⟨1, 2, 3, 50, 50⟩)) "Dice"
     (by decide)).2.2 "now" "overall" ⟨5, 6, 11, 45, 55⟩⟩

/-- Starting a fetch touches only `loading` and `error` in the component
state: `stats` and the three request parameters are untouched. -/
theorem fetchStatsStart_preserves (p : Params) (m : Machine) :
    (fetchStatsStart p m).st.stats = m.st.stats ∧
    (fetchStatsStart p m).st.selectedGame = m.st.selectedGame ∧
    (fetchStatsStart p m).st.timeframe = m.st.timeframe ∧
    (fetchStatsStart p m).st.activeTab = m.st.activeTab := by
  rcases m with ⟨st, ctrl, pending, ic, nid, mtd, lg⟩
  cases ctrl <;> cases mtd <;> exact ⟨rfl, rfl, rfl, rfl⟩

/-- `setStats` leaves `selectedGame` alone. -/
theorem setStatsM_preserves_selectedGame (v : Option Json) (m : Machine) :
    (setStatsM v m).st.selectedGame = m.st.selectedGame := by
  rcases m with ⟨st, ctrl, pending, ic, nid, mtd, lg⟩
  cases mtd <;> rfl

/-- `find?` for id `iB` is unchanged by filtering out the entries with a
different id `iA`. -/
theorem find_of_filter_ne (l : List PendingFetch) (iA iB : ℕ) (h : iA ≠ iB) :
    (l.filter (fun q => !(q.id == iA))).find? (fun q => q.id == iB) =
      l.find? (fun q => q.id == iB) := by
  induction l with
  | nil => rfl
  | cons x t ih =>
      by_cases hB : x.id = iB
      · simp [List.filter_cons, List.find?_cons, hB, Ne.symm h]
      · by_cases hA : x.id = iA
        · simp [List.filter_cons, List.find?_cons, hA, hB, ih, h]
        · simp [List.filter_cons, List.find?_cons, hA, hB, ih]

/-- Calling `fetchStats` while controller `i` is current, from any machine
state with any captured parameters: the fetch `i` owns is marked aborted, the
log gains exactly `abortReq i` FOLLOWED BY the `loading`/`error` setters and
the new `issue` (the prior call is cancelled before the new network request
goes out), and the fresh controller takes over. -/
theorem fetchStatsStart_supersedes (p : Params) (m : Machine) (i : ℕ)
    (hc : m.ctrl = some i) :
    (fetchStatsStart p m).pending =
      m.pending.map (fun q => if q.id = i then { q with aborted := true } else q) ++
        [{ id := m.nextId, endpoint := endpointFor p, aborted := false }] ∧
    (fetchStatsStart p m).log =
      m.log ++ [LogEv.abortReq i, LogEv.writeLoading true m.mounted,
        LogEv.writeError m.mounted, LogEv.issue m.nextId (endpointFor p)] ∧
    (fetchStatsStart p m).ctrl = some m.nextId := by
  rcases m with ⟨st, c, pending, ic, n, mtd, lg⟩
  have hc2 : c = some i := hc
  subst hc2
  refine ⟨?_, ?_, rfl⟩ <;>
    simp [fetchStatsStart, abortPending, setLoadingM, setErrorM, updSt]

/-- Settling an aborted fetch, in any machine state and with any outcome: the
`AbortError` path drops the cancellation silently, so `stats` and `error` are
untouched and the log gains only the `finally` clause's `setLoading(false)`;
the fetch leaves the pending list and `mounted` is unchanged. -/
theorem resolveFetch_aborted (m : Machine) (i : ℕ) (pf : PendingFetch)
    (o : FetchOutcomeC)
    (hf : m.pending.find? (fun q => q.id == i) = some pf) (hab : pf.aborted = true) :
    (resolveFetch i o m).st.stats = m.st.stats ∧
    (resolveFetch i o m).st.error = m.st.error ∧
    (resolveFetch i o m).pending = m.pending.filter (fun q => !(q.id == i)) ∧
    (resolveFetch i o m).mounted = m.mounted ∧
    (resolveFetch i o m).log = m.log ++ [LogEv.writeLoading false m.mounted] := by
  have heq : resolveFetch i o m =
      setLoadingM false { m with pending := m.pending.filter (fun q => !(q.id == i)) } := by
    unfold resolveFetch
    rw [hf]
    simp [hab]
  rw [heq]
  rcases m with ⟨st, c, pending, ic, n, mtd, lg⟩
  cases mtd <;> exact ⟨rfl, rfl, rfl, rfl, rfl⟩

/-- Settling a live (non-aborted) fetch on a mounted machine: `stats` and
`error` become exactly what the outcome dictates, the fetch leaves the
pending list, `mounted` is unchanged. -/
theorem resolveFetch_live (m : Machine) (i : ℕ) (pf : PendingFetch)
    (o : FetchOutcomeC) (hm : m.mounted = true)
    (hf : m.pending.find? (fun q => q.id == i) = some pf) (hab : pf.aborted = false) :
    (resolveFetch i o m).st.stats = outcomeStats o m.st.stats ∧
    (resolveFetch i o m).st.error = outcomeError o ∧
    (resolveFetch i o m).pending = m.pending.filter (fun q => !(q.id == i)) ∧
    (resolveFetch i o m).mounted = m.mounted := by
  have heq : resolveFetch i o m =
      settleOutcome o { m with pending := m.pending.filter (fun q => !(q.id == i)) } := by
    unfold resolveFetch
    rw [hf]
    simp [hab]
  rw [heq]
  rcases m with ⟨st, c, pending, ic, n, mtd, lg⟩
  cases mtd
  · exact absurd hm (by simp)
  · cases o with
    | success d => cases d <;> exact ⟨rfl, rfl, rfl, rfl⟩
    | httpError s => exact ⟨rfl, rfl, rfl, rfl⟩
    | networkError msg => exact ⟨rfl, rfl, rfl, rfl⟩

/-- Claim C1: for every execution in which `fetchStats` is called while a
prior call is in flight — from any machine state, with any captured
parameters, triggered by handler, effect or timer — the prior controller's
fetch is aborted before the new request is issued (`abortReq` precedes the
new `issue` in the log-extension equation); the cancelled call's completion,
for any outcome, writes neither `stats` nor `error` (its cancellation is
dropped silently — the only setter reached is the `finally` clause's
`setLoading(false)`); and in any machine state holding the cancelled fetch A
and the superseding live fetch B, after both settle — in either order —
`stats` and `error` reflect only B's outcome. -/
theorem C1_supersession :
    (∀ (p : Params) (m : Machine) (i : ℕ), m.ctrl = some i →
      (fetchStatsStart p m).pending =
        m.pending.map (fun q => if q.id = i then { q with aborted := true } else q) ++
          [{ id := m.nextId, endpoint := endpointFor p, aborted := false }] ∧
      (fetchStatsStart p m).log =
        m.log ++ [LogEv.abortReq i, LogEv.writeLoading true m.mounted,
          LogEv.writeError m.mounted, LogEv.issue m.nextId (endpointFor p)] ∧
      (fetchStatsStart p m).ctrl = some m.nextId) ∧
    (∀ (m : Machine) (i : ℕ) (pf : PendingFetch) (o : FetchOutcomeC),
      m.pending.find? (fun q => q.id == i) = some pf → pf.aborted = true →
      (resolveFetch i o m).st.stats = m.st.stats ∧
      (resolveFetch i o m).st.error = m.st.error ∧
      (resolveFetch i o m).log = m.log ++ [LogEv.writeLoading false m.mounted]) ∧
    (∀ (m : Machine) (iA iB : ℕ) (pfA pfB : PendingFetch) (oA oB : FetchOutcomeC),
      iA ≠ iB → m.mounted = true →
      m.pending.find? (fun q => q.id == iA) = some pfA → pfA.aborted = true →
      m.pending.find? (fun q => q.id == iB) = some pfB → pfB.aborted = false →
      (resolveFetch iB oB (resolveFetch iA oA m)).st.stats =
        outcomeStats oB m.st.stats ∧
      (resolveFetch iB oB (resolveFetch iA oA m)).st.error = outcomeError oB ∧
      (resolveFetch iA oA (resolveFetch iB oB m)).st.stats =
        outcomeStats oB m.st.stats ∧
      (resolveFetch iA oA (resolveFetch iB oB m)).st.error = outcomeError oB) := by
  refine ⟨fetchStatsStart_supersedes, ?_, ?_⟩
  · intro m i pf o hf hab
    obtain ⟨h1, h2, _, _, h5⟩ := resolveFetch_aborted m i pf o hf hab
    exact ⟨h1, h2, h5⟩
  · intro m iA iB pfA pfB oA oB hne hm hfA habA hfB habB
    obtain ⟨hAstats, hAerr, hApend, hAmtd, _⟩ := resolveFetch_aborted m iA pfA oA hfA habA
    have hfB1 : (resolveFetch iA oA m).pending.find? (fun q => q.id == iB) = some pfB := by
      rw [hApend, find_of_filter_ne _ _ _ hne]
      exact hfB
    have hm1 : (resolveFetch iA oA m).mounted = true := by
      rw [hAmtd]
      exact hm
    obtain ⟨hBstats, hBerr, _, _⟩ :=
      resolveFetch_live (resolveFetch iA oA m) iB pfB oB hm1 hfB1 habB
    obtain ⟨hB2stats, hB2err, hB2pend, hB2mtd⟩ := resolveFetch_live m iB pfB oB hm hfB habB
    have hfA2 : (resolveFetch iB oB m).pending.find? (fun q => q.id == iA) = some pfA := by
      rw [hB2pend, find_of_filter_ne _ _ _ (Ne.symm hne)]
      exact hfA
    obtain ⟨hA2stats, hA2err, _, _, _⟩ :=
      resolveFetch_aborted (resolveFetch iB oB m) iA pfA oA hfA2 habA
    refine ⟨?_, hBerr, ?_, ?_⟩
    · rw [hBstats, hAstats]
    · rw [hA2stats, hB2stats]
    · rw [hA2err, hB2err]

/-- Witness for C1: after mount the controller is 0 and a superseding call
installs a fresh controller; in the mount-then-tick machine the aborted fetch
0 settling with an HTTP 500 changes neither `stats` nor `error`; and with
aborted fetch 0 and live fetch 1 pending, settling in either order leaves
exactly fetch 1's outcome. -/
theorem C1_witness :
    ((run initMachine [UiAction.mountEffect]).ctrl = some 0 ∧
     (fetchStatsStart (Params.mk "overall" "" "overall")
        (run initMachine [UiAction.mountEffect])).ctrl =
       some (run initMachine [UiAction.mountEffect]).nextId) ∧
    ((run initMachine [UiAction.mountEffect, UiAction.tick]).pending.find?
        (fun q => q.id == 0) =
       some { id := 0, endpoint := "/api/proxy/stats/overall", aborted := true } ∧
     (resolveFetch 0 (FetchOutcomeC.httpError 500)
        (run initMachine [UiAction.mountEffect, UiAction.tick])).st.stats =
       (run initMachine [UiAction.mountEffect, UiAction.tick]).st.stats ∧
     (resolveFetch 0 (FetchOutcomeC.httpError 500)
        (run initMachine [UiAction.mountEffect, UiAction.tick])).st.error =
       (run initMachine [UiAction.mountEffect, UiAction.tick]).st.error) ∧
    ((0 : ℕ) ≠ 1 ∧
     (resolveFetch 1 (FetchOutcomeC.success (Json.obj []))
        (resolveFetch 0 (FetchOutcomeC.networkError "boom")
          (run initMachine [UiAction.mountEffect, UiAction.tick]))).st.stats =
       outcomeStats (FetchOutcomeC.success (Json.obj []))
         (run initMachine [UiAction.mountEffect, UiAction.tick]).st.stats ∧
     (resolveFetch 0 (FetchOutcomeC.networkError "boom")
        (resolveFetch 1 (FetchOutcomeC.success (Json.obj []))
          (run initMachine [UiAction.mountEffect, UiAction.tick]))).st.error =
       outcomeError (FetchOutcomeC.success (Json.obj []))) :=
  ⟨⟨rfl,
    (C1_supersession.1 (Params.mk "overall" "" "overall")
      (run initMachine [UiAction.mountEffect]) 0 rfl).2.2⟩,
   ⟨by decide,
    (C1_supersession.2.1 (run initMachine [UiAction.mountEffect, UiAction.tick]) 0
      { id := 0, endpoint := "/api/proxy/stats/overall", aborted := true }
      (FetchOutcomeC.httpError 500) (by decide) rfl).1,
    (C1_supersession.2.1 (run initMachine [UiAction.mountEffect, UiAction.tick]) 0
      { id := 0, endpoint := "/api/proxy/stats/overall", aborted := true }
      (FetchOutcomeC.httpError 500) (by decide) rfl).2.1⟩,
   ⟨by decide,
    (C1_supersession.2.2 (run initMachine [UiAction.mountEffect, UiAction.tick]) 0 1
      { id := 0, endpoint := "/api/proxy/stats/overall", aborted := true }
      { id := 1, endpoint := "/api/proxy/stats/overall", aborted := false }
      (FetchOutcomeC.networkError "boom") (FetchOutcomeC.success (Json.obj []))
      (by decide) rfl (by decide) rfl (by decide) rfl).1,
    (C1_supersession.2.2 (run initMachine [UiAction.mountEffect, UiAction.tick]) 0 1
      { id := 0, endpoint := "/api/proxy/stats/overall", aborted := true }
      { id := 1, endpoint := "/api/proxy/stats/overall", aborted := false }
      (FetchOutcomeC.networkError "boom") (FetchOutcomeC.success (Json.obj []))
      (by decide) rfl (by decide) rfl (by decide) rfl).2.2.2⟩⟩

/-- Claim C4: a `fetchStats` call that fails for any reason other than
cancellation (network error, non-2xx status, malformed body) sets `error` to
the corresponding human-readable message and leaves `stats` unchanged. -/
theorem C4_error_atomicity :
    ∀ (m : Machine) (i : ℕ) (pf : PendingFetch) (o : FetchOutcomeC) (msg : String),
      m.mounted = true →
      m.pending.find? (fun q => q.id == i) = some pf →
      pf.aborted = false →
      failureMessage o = some msg →
      (resolveFetch i o m).st.stats = m.st.stats ∧
      (resolveFetch i o m).st.error = some msg := by
  intro m i pf o msg hm hfind hab hmsg
  unfold resolveFetch
  rw [hfind]
  simp only [hab, Bool.false_eq_true, if_false]
  cases o with
  | success d =>
      cases hd : isObjectLike d with
      | true => simp [failureMessage, hd] at hmsg
      | false =>
          simp [failureMessage, hd] at hmsg
          subst hmsg
          constructor <;> simp [settleOutcome, hd, setErrorM, setLoadingM, updSt, hm]
  | httpError status =>
      simp [failureMessage] at hmsg
      subst hmsg
      constructor <;> simp [settleOutcome, setErrorM, setLoadingM, updSt, hm]
  | networkError m2 =>
      simp [failureMessage] at hmsg
      subst hmsg
      constructor <;> simp [settleOutcome, setErrorM, setLoadingM, updSt, hm]

/-- Witness for C4: the fetch issued at mount settles with an upstream 404 —
`error` becomes the status message and `stats` keeps its previous value. -/
theorem C4_witness :
    ((run initMachine [UiAction.mountEffect]).mounted = true ∧
     (run initMachine [UiAction.mountEffect]).pending.find? (fun q => q.id == 0) =
       some { id := 0, endpoint := "/api/proxy/stats/overall", aborted := false } ∧
     failureMessage (FetchOutcomeC.httpError 404) =
       some "Server responded with status 404") ∧
    ((resolveFetch 0 (FetchOutcomeC.httpError 404)
        (run initMachine [UiAction.mountEffect])).st.stats =
      (run initMachine [UiAction.mountEffect]).st.stats ∧
     (resolveFetch 0 (FetchOutcomeC.httpError 404)
        (run initMachine [UiAction.mountEffect])).st.error =
      some "Server responded with status 404") :=
  ⟨⟨rfl, by decide, by decide⟩,
   C4_error_atomicity (run initMachine [UiAction.mountEffect]) 0
     { id := 0, endpoint := "/api/proxy/stats/overall", aborted := false }
     (FetchOutcomeC.httpError 404) "Server responded with status 404"
     rfl (by decide) rfl (by decide)⟩

/-- Counterexample to claim C5 as stated: switching `activeTab` away from
`"game"` to `"help"` does NOT clear `selectedGame` — after selecting the
dice game on the game tab and then switching to the help tab, `selectedGame`
is still `"dice"`. -/
theorem C5_counterexample :
    (run initMachine [UiAction.mountEffect, UiAction.tabChange "game", UiAction.effectRerun,
        UiAction.gameChange "dice", UiAction.effectRerun, UiAction.tabChange "help",
        UiAction.effectRerun]).st.activeTab = "help" ∧
    (run initMachine [UiAction.mountEffect, UiAction.tabChange "game", UiAction.effectRerun,
        UiAction.gameChange "dice", UiAction.effectRerun, UiAction.tabChange "help",
        UiAction.effectRerun]).st.selectedGame = "dice" ∧
    ("dice" : String) ≠ "" :=
  ⟨rfl, rfl, by decide⟩

/-- Claim C5 as amended: a tab change clears `selectedGame` only when the new
tab is `"overall"` (moving to `"help"`, `"realities"` or `"about"` leaves it
untouched); switching from `"game"` to `"overall"` clears `selectedGame` and,
of the two fetches the change triggers (the handler's immediate fetch, built
from the previous parameters and therefore aimed at the game endpoint, plus
the effect re-run's fetch), exactly one targets the overall endpoint — the
effect's, which becomes the authoritative request. -/
theorem C5_amended_tab_clearing :
    (∀ (m : Machine) (t : String), t ≠ "overall" →
      (handleTabChange t m).st.selectedGame = m.st.selectedGame) ∧
    (∀ m : Machine, m.mounted = true →
      (handleTabChange "overall" m).st.selectedGame = "") ∧
    (issuedEndpoints (run initMachine [UiAction.mountEffect, UiAction.tabChange "game",
        UiAction.effectRerun, UiAction.gameChange "dice", UiAction.effectRerun,
        UiAction.tabChange "overall", UiAction.effectRerun]).log =
      issuedEndpoints (run initMachine [UiAction.mountEffect, UiAction.tabChange "game",
        UiAction.effectRerun, UiAction.gameChange "dice", UiAction.effectRerun]).log ++
      ["/api/proxy/stats/game/overall/dice", "/api/proxy/stats/overall"]) ∧
    ((["/api/proxy/stats/game/overall/dice",
       "/api/proxy/stats/overall"].count "/api/proxy/stats/overall") = 1) ∧
    ((run initMachine [UiAction.mountEffect, UiAction.tabChange "game", UiAction.effectRerun,
        UiAction.gameChange "dice", UiAction.effectRerun, UiAction.tabChange "overall",
        UiAction.effectRerun]).st.selectedGame = "") := by
  refine ⟨?_, ?_, by decide, by decide, by decide⟩
  · intro m t ht
    rcases m with ⟨st, c, p, ic, n, mtd, lg⟩
    simp only [handleTabChange, if_neg ht]
    cases c <;> cases mtd <;> rfl
  · intro m hm
    rcases m with ⟨st, c, p, ic, n, mtd, lg⟩
    cases mtd
    · exact absurd hm (by simp)
    · cases c <;> rfl

/-- Witness for the amended C5: switching to the help tab with `"dice"`
selected keeps it, and switching to the overall tab from a mounted machine
clears it. -/
theorem C5_amended_witness :
    (("help" : String) ≠ "overall" ∧
     (handleTabChange "help" (run initMachine [UiAction.mountEffect, UiAction.tabChange "game",
        UiAction.effectRerun, UiAction.gameChange "dice",
        UiAction.effectRerun])).st.selectedGame =
       (run initMachine [UiAction.mountEffect, UiAction.tabChange "game", UiAction.effectRerun,
        UiAction.gameChange "dice", UiAction.effectRerun]).st.selectedGame) ∧
    ((run initMachine [UiAction.mountEffect, UiAction.tabChange "game", UiAction.effectRerun,
        UiAction.gameChange "dice", UiAction.effectRerun]).mounted = true ∧
     (handleTabChange "overall" (run initMachine [UiAction.mountEffect,
        UiAction.tabChange "game", UiAction.effectRerun, UiAction.gameChange "dice",
        UiAction.effectRerun])).st.selectedGame = "") :=
  ⟨⟨by decide,
    C5_amended_tab_clearing.1 (run initMachine [UiAction.mountEffect,
      UiAction.tabChange "game", UiAction.effectRerun, UiAction.gameChange "dice",
      UiAction.effectRerun]) "help" (by decide)⟩,
   ⟨rfl,
    C5_amended_tab_clearing.2.1 (run initMachine [UiAction.mountEffect,
      UiAction.tabChange "game", UiAction.effectRerun, UiAction.gameChange "dice",
      UiAction.effectRerun]) rfl⟩⟩

/-- Counterexample to claim C6 as stated: after `handleTimeframeChange
"hourly"` runs (from the initial `"overall"` timeframe), the fetch the
handler issued targets `/api/proxy/stats/overall` — the PREVIOUS timeframe's
endpoint — and no issued request targets `/api/proxy/stats/hourly`; the
claim says the handler's fetch uses the just-updated parameters. -/
theorem C6_counterexample :
    (issuedEndpoints (run initMachine [UiAction.mountEffect,
        UiAction.timeframeChange "hourly"]).log =
      ["/api/proxy/stats/overall", "/api/proxy/stats/overall"]) ∧
    (∀ ep ∈ issuedEndpoints (run initMachine [UiAction.mountEffect,
        UiAction.timeframeChange "hourly"]).log, ep ≠ "/api/proxy/stats/hourly") :=
  ⟨rfl, by decide⟩

/-- Claim C6 as amended: each parameter-change handler clears `stats` and
records the new parameter value, but its immediate `fetchStats` call closes
over the PREVIOUS render's parameters, so the fetch it issues targets the
old endpoint; the parameter change re-creates `fetchStats`, the effect
re-runs, aborts the handler's fetch and issues a fetch built from the NEW
parameter values — after the effect re-run the only live request (and the
current controller's request) is the one targeting the new parameters'
endpoint. -/
theorem C6_amended_parameter_change :
    (∀ tf : String,
      (run initMachine [UiAction.mountEffect, UiAction.timeframeChange tf]).st.stats
        = none ∧
      (run initMachine [UiAction.mountEffect, UiAction.timeframeChange tf]).st.timeframe
        = tf ∧
      issuedEndpoints (run initMachine [UiAction.mountEffect,
          UiAction.timeframeChange tf]).log =
        ["/api/proxy/stats/overall", "/api/proxy/stats/overall"] ∧
      issuedEndpoints (run initMachine [UiAction.mountEffect, UiAction.timeframeChange tf,
          UiAction.effectRerun]).log =
        ["/api/proxy/stats/overall", "/api/proxy/stats/overall",
         "/api/proxy/stats/" ++ tf] ∧
      (run initMachine [UiAction.mountEffect, UiAction.timeframeChange tf,
          UiAction.effectRerun]).pending.filter (fun pf => !pf.aborted) =
        [{ id := 2, endpoint := "/api/proxy/stats/" ++ tf, aborted := false }]) ∧
    (∀ g : String,
      (run initMachine [UiAction.mountEffect, UiAction.tabChange "game", UiAction.effectRerun,
          UiAction.gameChange g]).st.stats = none ∧
      (run initMachine [UiAction.mountEffect, UiAction.tabChange "game", UiAction.effectRerun,
          UiAction.gameChange g]).st.selectedGame = g ∧
      issuedEndpoints (run initMachine [UiAction.mountEffect, UiAction.tabChange "game",
          UiAction.effectRerun, UiAction.gameChange g]).log =
        ["/api/proxy/stats/overall", "/api/proxy/stats/overall", "/api/proxy/stats/overall",
         "/api/proxy/stats/overall"] ∧
      issuedEndpoints (run initMachine [UiAction.mountEffect, UiAction.tabChange "game",
          UiAction.effectRerun, UiAction.gameChange g, UiAction.effectRerun]).log =
        ["/api/proxy/stats/overall", "/api/proxy/stats/overall", "/api/proxy/stats/overall",
         "/api/proxy/stats/overall",
         endpointFor (Params.mk "overall" g "game")] ∧
      (run initMachine [UiAction.mountEffect, UiAction.tabChange "game", UiAction.effectRerun,
          UiAction.gameChange g, UiAction.effectRerun]).pending.filter
            (fun pf => !pf.aborted) =
        [{ id := 4,
           endpoint := endpointFor (Params.mk "overall" g "game"),
           aborted := false }]) ∧
    (∀ g : String, g ≠ "" →
      endpointFor (Params.mk "overall" g "game") =
        "/api/proxy/stats/game/overall/" ++ toLowerStr g) ∧
    ((run initMachine [UiAction.mountEffect, UiAction.tabChange "game"]).st.stats = none ∧
     (run initMachine [UiAction.mountEffect, UiAction.tabChange "game"]).st.activeTab
       = "game" ∧
     issuedEndpoints (run initMachine [UiAction.mountEffect,
         UiAction.tabChange "game"]).log =
       ["/api/proxy/stats/overall", "/api/proxy/stats/overall"] ∧
     issuedEndpoints (run initMachine [UiAction.mountEffect, UiAction.tabChange "game",
         UiAction.effectRerun]).log =
       ["/api/proxy/stats/overall", "/api/proxy/stats/overall",
        "/api/proxy/stats/overall"]) := by
  refine ⟨fun tf => ⟨rfl, rfl, rfl, rfl, rfl⟩, fun g => ⟨rfl, rfl, rfl, rfl, rfl⟩,
    ?_, rfl, rfl, rfl, rfl⟩
  intro g hg
  simp [endpointFor, hg]

/-- Witness for the amended C6: the new-parameter endpoint construction at a
concrete non-empty game name. -/
theorem C6_amended_witness :
    ("Dice" : String) ≠ "" ∧
    endpointFor (Params.mk "overall" "Dice" "game") =
      "/api/proxy/stats/game/overall/" ++ toLowerStr "Dice" :=
  ⟨by decide, C6_amended_parameter_change.2.2.1 "Dice" (by decide)⟩

/-- Counterexample to claim C8 as stated: unmount with the mount fetch still
in flight, then let that (aborted) fetch settle — its `finally` clause still
invokes `setLoading(false)` after unmount: the log records a `loading` write
whose mounted flag is `false`. -/
theorem C8_counterexample :
    LogEv.writeLoading false false ∈
      (run initMachine [UiAction.mountEffect, UiAction.unmount,
        UiAction.resolveF 0 (FetchOutcomeC.success (Json.obj []))]).log := by
  decide

/-- Claim C8 as amended: unmounting cancels the refresh timer and aborts the
outstanding request, and an in-flight fetch settling after unmount changes no
component state (in particular it never writes `stats` or `error`); however
its `finally` clause still invokes `setLoading(false)` after unmount — a
setter call on an unmounted component, recorded in the log and ignored by
React — so teardown is free of dangling `stats`/`error` updates but not of
the dangling `loading` setter invocation. -/
theorem C8_amended_teardown :
    ∀ o : FetchOutcomeC,
      (run initMachine [UiAction.mountEffect, UiAction.unmount]).intervalClosure = none ∧
      (run initMachine [UiAction.mountEffect, UiAction.unmount]).pending =
        [{ id := 0, endpoint := "/api/proxy/stats/overall", aborted := true }] ∧
      (run initMachine [UiAction.mountEffect, UiAction.unmount,
          UiAction.resolveF 0 o]).st =
        (run initMachine [UiAction.mountEffect, UiAction.unmount]).st ∧
      (run initMachine [UiAction.mountEffect, UiAction.unmount,
          UiAction.resolveF 0 o]).log =
        (run initMachine [UiAction.mountEffect, UiAction.unmount]).log ++
          [LogEv.writeLoading false false] :=
  fun _ => ⟨rfl, rfl, rfl, rfl⟩
